import Mathlib

/-!
# Verification of the RTI generation-and-tracking subsystem

Shallow embedding of `india/rti/rti_generator.py` and `india/rti/rti_tracker.py`
(the core identified by the specification), together with proofs of the spec
claims about fee resolution, deadline arithmetic, the record store and its
mutators, the query layer, bilingual rendering and template question
extraction.

Conventions of the embedding:
* Python `datetime` values are modelled as `Int` timestamps counted in seconds
  (proleptic Gregorian, epoch 0000-03-01, no timezone — the spec requires
  wall-clock arithmetic only).  `timedelta(days = n)` is `daysTd n = n * 86400`
  seconds, exactly the fixed-length day that `datetime + timedelta` uses.
* Python `None`-able values are `Option`; Python truthiness of strings /
  lists / datetimes is modelled explicitly (`pyTruthyStr`, …) because the
  source branches on truthiness, not on `is None`.
* The SQLAlchemy store is modelled as explicit state passing over a list of
  records; `datetime.now()` / `datetime.utcnow()` become an explicit `now`
  argument to each operation (a single clock, since the spec needs no
  timezone distinction).
* JSON-encoded columns (`questions_json`, `documents_received`) are modelled
  by the encoded lists themselves (`json.dumps` / `json.loads` round-trip).
-/

/-- One day of `timedelta(days := n)` in seconds: Python timedeltas add a fixed
86400-second day, not calendar months. -/
def daysTd (n : Int) : Int := n * 86400

/-- Days since 0000-03-01 of a proleptic-Gregorian civil date (standard
civil-to-day-count conversion; valid for years ≥ 1, months 1..12). -/
def daysFromCivil (y m d : Nat) : Nat :=
  let y2 := if m ≤ 2 then y - 1 else y
  let era := y2 / 400
  let yoe := y2 % 400
  let mp := (m + 9) % 12
  let doy := (153 * mp + 2) / 5 + d - 1
  let doe := yoe * 365 + yoe / 4 - yoe / 100 + doy
  era * 146097 + doe

/-- Timestamp (seconds) of midnight of a civil date. -/
def tsOfCivil (y m d : Nat) : Int := (daysFromCivil y m d : Int) * 86400

/-- Inverse of `daysFromCivil`: the civil date (year, month, day) of a day
count since 0000-03-01. -/
def civilFromDays (z : Nat) : Nat × Nat × Nat :=
  let era := z / 146097
  let doe := z % 146097
  let yoe := (doe - doe / 1460 + doe / 36524 - doe / 146096) / 365
  let doy := doe - (365 * yoe + yoe / 4 - yoe / 100)
  let mp := (5 * doy + 2) / 153
  let d := doy - (153 * mp + 2) / 5 + 1
  let m := if mp < 10 then mp + 3 else mp - 9
  let y := yoe + era * 400
  (if m ≤ 2 then y + 1 else y, m, d)

/-- Two-digit zero padding, as produced by `strftime` numeric fields. -/
def pad2 (n : Nat) : String := if n < 10 then "0" ++ toString n else toString n

/-- Model of `strftime("%d/%m/%Y")` on a (non-negative) timestamp. -/
def fmtDateDMY (t : Int) : String :=
  let z := t.toNat / 86400
  let c := civilFromDays z
  pad2 c.2.2 ++ "/" ++ pad2 c.2.1 ++ "/" ++ toString c.1

/-- Model of `strftime("%Y-%m-%d %H:%M")` on a (non-negative) timestamp, the
format used for note-log timestamps. -/
def fmtTimestamp (t : Int) : String :=
  let tn := t.toNat
  let z := tn / 86400
  let s := tn % 86400
  let c := civilFromDays z
  toString c.1 ++ "-" ++ pad2 c.2.1 ++ "-" ++ pad2 c.2.2 ++ " " ++
    pad2 (s / 3600) ++ ":" ++ pad2 (s % 3600 / 60)

/-- Python truthiness of an `Optional[str]`: `None` and the empty string are
falsy, every other string is truthy. -/
def pyTruthyStr (o : Option String) : Bool :=
  match o with
  | none => false
  | some s => !(s == "")

/-- Python truthiness of an `Optional[list]`: `None` and `[]` are falsy. -/
def pyTruthyList (o : Option (List String)) : Bool :=
  match o with
  | none => false
  | some l => !l.isEmpty

/-- Python `a or b` for an optional string `a` (falls through on `None` and on
the empty string). -/
def pyOrStr (o : Option String) (dflt : String) : String :=
  match o with
  | none => dflt
  | some s => if s == "" then dflt else s

/-- Python truthiness of a `datetime` object: `datetime` defines no boolean
override, so every `datetime` instance is truthy. -/
def datetimeTruthy (_ : Int) : Bool := true

/-- `FEES` table of `rti_generator.py`: fee category / normalized state name
to rupee amount (insertion order preserved). -/
def FEES : List (String × Nat) :=
  [("central", 10), ("andhra_pradesh", 10), ("bihar", 10), ("chhattisgarh", 10),
   ("delhi", 10), ("goa", 10), ("gujarat", 20), ("haryana", 10),
   ("himachal_pradesh", 10), ("jharkhand", 10), ("karnataka", 10),
   ("kerala", 10), ("madhya_pradesh", 10), ("maharashtra", 10),
   ("odisha", 10), ("punjab", 10), ("rajasthan", 10), ("tamil_nadu", 10),
   ("telangana", 10), ("uttar_pradesh", 10), ("uttarakhand", 10),
   ("west_bengal", 10)]

/-- Dict lookup `FEES.get(k)` / membership `k in FEES`. -/
def feesLookup (k : String) : Option Nat := FEES.lookup k

/-- The state-name normalization applied before the `FEES` lookup:
`state.lower().replace(" ", "_")` (ASCII lowering, as the table keys are
ASCII; replacing the one-character pattern `" "` is a character map). -/
def normState (s : String) : String :=
  String.mk ((s.data.map Char.toLower).map (fun c => if c == ' ' then '_' else c))

/-- One entry of `AGENCY_DIRECTORY` (every agency dict in the source carries
all eight keys). -/
structure Agency where
  name : String
  name_hi : String
  pio_designation : String
  address : String
  parent_ministry : String
  fee_category : String
  appellate_authority : String
  second_appeal : String
deriving DecidableEq, Repr

/-- `AGENCY_DIRECTORY` of `rti_generator.py` (insertion order preserved). -/
def AGENCY_DIRECTORY : List (String × Agency) :=
  [("awbi",
    { name := "Animal Welfare Board of India",
      name_hi := "भारतीय पशु कल्याण बोर्ड",
      pio_designation := "Public Information Officer",
      address := "13/1, Third Seaward Road, Valmiki Nagar, Thiruvanmiyur, Chennai - 600041",
      parent_ministry := "Ministry of Fisheries, Animal Husbandry and Dairying",
      fee_category := "central",
      appellate_authority := "First Appellate Authority, AWBI",
      second_appeal := "Central Information Commission, New Delhi" }),
   ("fssai",
    { name := "Food Safety and Standards Authority of India",
      name_hi := "भारतीय खाद्य सुरक्षा और मानक प्राधिकरण",
      pio_designation := "Central Public Information Officer",
      address := "FDA Bhawan, Kotla Road, New Delhi - 110002",
      parent_ministry := "Ministry of Health and Family Welfare",
      fee_category := "central",
      appellate_authority := "First Appellate Authority, FSSAI",
      second_appeal := "Central Information Commission, New Delhi" }),
   ("cpcb",
    { name := "Central Pollution Control Board",
      name_hi := "केंद्रीय प्रदूषण नियंत्रण बोर्ड",
      pio_designation := "Central Public Information Officer",
      address := "Parivesh Bhawan, East Arjun Nagar, Delhi - 110032",
      parent_ministry := "Ministry of Environment, Forest and Climate Change",
      fee_category := "central",
      appellate_authority := "First Appellate Authority, CPCB",
      second_appeal := "Central Information Commission, New Delhi" }),
   ("dahd",
    { name := "Department of Animal Husbandry and Dairying",
      name_hi := "पशुपालन और डेयरी विभाग",
      pio_designation := "Central Public Information Officer",
      address := "Krishi Bhawan, Dr. Rajendra Prasad Road, New Delhi - 110001",
      parent_ministry := "Ministry of Fisheries, Animal Husbandry and Dairying",
      fee_category := "central",
      appellate_authority := "First Appellate Authority, DAHD",
      second_appeal := "Central Information Commission, New Delhi" }),
   ("nlm",
    { name := "National Livestock Mission",
      name_hi := "राष्ट्रीय पशुधन मिशन",
      pio_designation := "Central Public Information Officer",
      address := "Department of Animal Husbandry and Dairying, Krishi Bhawan, New Delhi - 110001",
      parent_ministry := "Ministry of Fisheries, Animal Husbandry and Dairying",
      fee_category := "central",
      appellate_authority := "First Appellate Authority, DAHD",
      second_appeal := "Central Information Commission, New Delhi" }),
   ("rgm",
    { name := "Rashtriya Gokul Mission",
      name_hi := "राष्ट्रीय गोकुल मिशन",
      pio_designation := "Central Public Information Officer",
      address := "Department of Animal Husbandry and Dairying, Krishi Bhawan, New Delhi - 110001",
      parent_ministry := "Ministry of Fisheries, Animal Husbandry and Dairying",
      fee_category := "central",
      appellate_authority := "First Appellate Authority, DAHD",
      second_appeal := "Central Information Commission, New Delhi" })]

/-- `AGENCY_DIRECTORY.get(code)` (`None` when absent). -/
def agencyLookup (code : String) : Option Agency := AGENCY_DIRECTORY.lookup code

/-- `AGENCY_DIRECTORY.get(code, {}).get("fee_category", "central")`: a missing
agency falls back to the `"central"` category via the empty dict. -/
def agencyFeeCategory (code : String) : String :=
  match agencyLookup code with
  | some a => a.fee_category
  | none => "central"

/-- `RTIApplication` dataclass of `rti_generator.py`.  `filing_date` is an
`Int` (not an `Option`) because `__post_init__` replaces `None` with
`datetime.now()` before any method runs. -/
structure RTIApplication where
  agency_code : String
  questions : List String
  applicant_name : String
  applicant_address : String
  applicant_phone : Option String
  applicant_email : Option String
  is_bpl : Bool
  bpl_certificate_number : Option String
  language : String
  state : Option String
  district : Option String
  subject : String
  filing_date : Int
  custom_pio_name : Option String
  custom_pio_address : Option String
deriving DecidableEq, Repr

/-- `RTIApplication.fee_amount`: BPL exemption, else normalized-state lookup
in `FEES`, else the agency fee category with default 10. -/
def RTIApplication.fee_amount (app : RTIApplication) : Nat :=
  if app.is_bpl then 0
  else
    match app.state with
    | some s =>
      if s == "" then (feesLookup (agencyFeeCategory app.agency_code)).getD 10
      else
        match feesLookup (normState s) with
        | some v => v
        | none => (feesLookup (agencyFeeCategory app.agency_code)).getD 10
    | none => (feesLookup (agencyFeeCategory app.agency_code)).getD 10

/-- `RTIApplication.response_deadline`: 30 days from filing (Section 7(1)). -/
def RTIApplication.response_deadline (app : RTIApplication) : Int :=
  app.filing_date + daysTd 30

/-- `RTIApplication.first_appeal_deadline`: 30 days after the response
deadline (Section 19(1)). -/
def RTIApplication.first_appeal_deadline (app : RTIApplication) : Int :=
  app.response_deadline + daysTd 30

/-- `RTIApplication.second_appeal_deadline`: 90 days after the first appeal
deadline (Section 19(3)). -/
def RTIApplication.second_appeal_deadline (app : RTIApplication) : Int :=
  app.first_appeal_deadline + daysTd 90

example : daysFromCivil 2026 1 31 = daysFromCivil 2026 1 1 + 30 := by decide
example : daysFromCivil 2026 3 2 = daysFromCivil 2026 1 1 + 60 := by decide
example : daysFromCivil 2026 5 31 = daysFromCivil 2026 1 1 + 150 := by decide
example : civilFromDays (daysFromCivil 2026 5 31) = (2026, 5, 31) := by decide
example : normState "Tamil Nadu" = "tamil_nadu" := by decide

/-- Python `str.strip()` (ASCII whitespace; the strings stripped here are
ASCII-delimited note lines and template lines). -/
def isPySpace (c : Char) : Bool :=
  c == ' ' || c == '\t' || c == '\n' || c == '\r' || c == '\x0b' || c == '\x0c'

/-- `s.strip()` over the character list (reduces under `decide`). -/
def pyStrip (s : String) : String :=
  String.mk (((s.data.dropWhile isPySpace).reverse.dropWhile isPySpace).reverse)

/-- `RTIStatus` enumeration of `rti_tracker.py`. -/
inductive RTIStatus where
  | drafted
  | filed
  | acknowledged
  | transferred
  | response_received
  | partial_response
  | denied
  | no_response
  | first_appeal_filed
  | first_appeal_decided
  | second_appeal_filed
  | second_appeal_decided
  | complaint_filed
  | closed
deriving DecidableEq, Repr

/-- `RTIRecord` row of `rti_tracker.py` (the JSON-encoded columns
`questions_json` and `documents_received` are modelled by the lists they
encode; the columns never touched by any operation under scrutiny keep their
column defaults). -/
structure RTIRecord where
  id : Nat
  reference_number : Option String
  agency_code : String
  agency_name : String
  applicant_name : String
  subject : String
  questions : List String
  full_text : Option String
  state : Option String
  district : Option String
  filing_date : Int
  fee_amount : Nat
  status : RTIStatus
  is_bpl : Bool
  acknowledgment_date : Option Int
  response_date : Option Int
  response_deadline : Int
  first_appeal_deadline : Option Int
  second_appeal_deadline : Option Int
  first_appeal_date : Option Int
  first_appeal_authority : Option String
  second_appeal_date : Option Int
  second_appeal_authority : Option String
  notes : Option String
  response_summary : Option String
  documents_received : Option (List String)
  created_at : Int
  updated_at : Int
deriving DecidableEq, Repr

/-- The tracker store: the `rti_records` table (in insertion order) plus the
auto-increment counter. -/
structure TrackerState where
  recs : List RTIRecord
  nextId : Nat
deriving DecidableEq, Repr

/-- A fresh tracker (SQLite auto-increment starts at 1). -/
def emptyTracker : TrackerState := { recs := [], nextId := 1 }

/-- `session.get(RTIRecord, record_id)` — also the tracker's `get_by_id`
(which returns `None` for a missing id; the dict conversion is dropped). -/
def getById (st : TrackerState) (record_id : Nat) : Option RTIRecord :=
  st.recs.find? (fun r => r.id == record_id)

/-- Common mutator skeleton of `rti_tracker.py`: fetch the row by id, return
`False` (state unchanged) when absent, else apply the field updates and
commit, returning `True`. -/
def updateRecord (st : TrackerState) (record_id : Nat) (f : RTIRecord → RTIRecord) :
    TrackerState × Bool :=
  match getById st record_id with
  | none => (st, false)
  | some _ =>
    ({ st with recs := st.recs.map (fun r => if r.id == record_id then f r else r) }, true)

/-- The note-log append of the mutators:
`f"{existing}\n[{timestamp}] {note}".strip()` over `existing = notes or ""`. -/
def appendNote (existing : Option String) (timestamp note : String) : String :=
  pyStrip (pyOrStr existing "" ++ "\n[" ++ timestamp ++ "] " ++ note)

/-- `RTITracker.add_rti`: defaults `filing_date` to `now`, derives the
response deadline, inserts the row and returns the new id.  The status
conditional of the source tests the truthiness of the *already defaulted*
`filing_date` (a `datetime`, hence always truthy). -/
def addRti (st : TrackerState) (now : Int)
    (agency_code agency_name applicant_name subject : String)
    (questions : List String) (filing_date : Option Int) (fee : Nat)
    (state district full_text reference_number : Option String) :
    TrackerState × Nat :=
  let fd := filing_date.getD now
  let rd := fd + daysTd 30
  let record : RTIRecord :=
    { id := st.nextId
      reference_number := reference_number
      agency_code := agency_code
      agency_name := agency_name
      applicant_name := applicant_name
      subject := subject
      questions := questions
      full_text := full_text
      state := state
      district := district
      filing_date := fd
      fee_amount := fee
      status := if datetimeTruthy fd then RTIStatus.filed else RTIStatus.drafted
      is_bpl := false
      acknowledgment_date := none
      response_date := none
      response_deadline := rd
      first_appeal_deadline := none
      second_appeal_deadline := none
      first_appeal_date := none
      first_appeal_authority := none
      second_appeal_date := none
      second_appeal_authority := none
      notes := none
      response_summary := none
      documents_received := none
      created_at := now
      updated_at := now }
  ({ recs := st.recs ++ [record], nextId := st.nextId + 1 }, st.nextId)

/-- Row-level effect of `RTITracker.update_status`: set the status, stamp
`updated_at`, append a timestamped note when one is given, set the summary
when given, and stamp `response_date := now` when the new status is
`response_received`. -/
def updateStatusRow (now : Int) (status : RTIStatus)
    (notes response_summary : Option String) (r : RTIRecord) : RTIRecord :=
  let r1 := { r with status := status, updated_at := now }
  let r2 :=
    if pyTruthyStr notes then
      { r1 with notes := some (appendNote r1.notes (fmtTimestamp now) (notes.getD "")) }
    else r1
  let r3 :=
    if pyTruthyStr response_summary then { r2 with response_summary := response_summary }
    else r2
  if status == RTIStatus.response_received then { r3 with response_date := some now } else r3

/-- `RTITracker.update_status`. -/
def updateStatus (st : TrackerState) (now : Int) (record_id : Nat)
    (status : RTIStatus) (notes response_summary : Option String) :
    TrackerState × Bool :=
  updateRecord st record_id (updateStatusRow now status notes response_summary)

/-- Row-level effect of `RTITracker.mark_response_received`. -/
def markResponseRow (now : Int) (response_summary : String)
    (documents : Option (List String)) (response_date : Option Int)
    (r : RTIRecord) : RTIRecord :=
  let r1 := { r with status := RTIStatus.response_received,
                     response_date := some (response_date.getD now),
                     response_summary := some response_summary }
  let r2 := if pyTruthyList documents then { r1 with documents_received := documents } else r1
  { r2 with updated_at := now }

/-- `RTITracker.mark_response_received`. -/
def markResponseReceived (st : TrackerState) (now : Int) (record_id : Nat)
    (response_summary : String) (documents : Option (List String))
    (response_date : Option Int) : TrackerState × Bool :=
  updateRecord st record_id (markResponseRow now response_summary documents response_date)

/-- Row-level effect of `RTITracker.file_first_appeal`: status
`first_appeal_filed`, appeal date defaulting to `now`, and
`first_appeal_deadline := first_appeal_date + 30d` (overwriting any stored
value). -/
def fileFirstAppealRow (now : Int) (appeal_authority : String)
    (appeal_date : Option Int) (notes : Option String) (r : RTIRecord) : RTIRecord :=
  let d := appeal_date.getD now
  let r1 := { r with status := RTIStatus.first_appeal_filed,
                     first_appeal_date := some d,
                     first_appeal_authority := some appeal_authority,
                     first_appeal_deadline := some (d + daysTd 30) }
  let r2 :=
    if pyTruthyStr notes then
      { r1 with notes := some (appendNote r1.notes (fmtTimestamp now)
                                 ("First appeal: " ++ notes.getD "")) }
    else r1
  { r2 with updated_at := now }

/-- `RTITracker.file_first_appeal`. -/
def fileFirstAppeal (st : TrackerState) (now : Int) (record_id : Nat)
    (appeal_authority : String) (appeal_date : Option Int) (notes : Option String) :
    TrackerState × Bool :=
  updateRecord st record_id (fileFirstAppealRow now appeal_authority appeal_date notes)

/-- Row-level effect of `RTITracker.file_second_appeal`: status
`second_appeal_filed`, appeal date defaulting to `now`, and
`second_appeal_deadline := second_appeal_date + 90d`. -/
def fileSecondAppealRow (now : Int) (appeal_date : Option Int)
    (commission : String) (notes : Option String) (r : RTIRecord) : RTIRecord :=
  let d := appeal_date.getD now
  let r1 := { r with status := RTIStatus.second_appeal_filed,
                     second_appeal_date := some d,
                     second_appeal_authority := some commission,
                     second_appeal_deadline := some (d + daysTd 90) }
  let r2 :=
    if pyTruthyStr notes then
      { r1 with notes := some (appendNote r1.notes (fmtTimestamp now)
                                 ("Second appeal: " ++ notes.getD "")) }
    else r1
  { r2 with updated_at := now }

/-- `RTITracker.file_second_appeal`. -/
def fileSecondAppeal (st : TrackerState) (now : Int) (record_id : Nat)
    (appeal_date : Option Int) (commission : String) (notes : Option String) :
    TrackerState × Bool :=
  updateRecord st record_id (fileSecondAppealRow now appeal_date commission notes)

/-- `RTITracker.get_overdue`: rows past their response deadline whose status
is still `filed` or `acknowledged`. -/
def getOverdue (st : TrackerState) (now : Int) : List RTIRecord :=
  st.recs.filter (fun r =>
    decide (r.response_deadline < now) &&
      (r.status == RTIStatus.filed || r.status == RTIStatus.acknowledged))

/-- `_number_to_words` of `rti_generator.py` (fee amounts). -/
def numberToWords (n : Nat) : String :=
  match (([(0, "Zero"), (2, "Two"), (5, "Five"), (10, "Ten"), (20, "Twenty"),
           (50, "Fifty"), (100, "One Hundred")] : List (Nat × String)).lookup n) with
  | some w => w
  | none => toString n

/-- The `months_hi` table of `_format_date_hindi` (keys 1..12; any other key
would raise in the source and is unreachable for civil dates). -/
def monthHindi (m : Nat) : String :=
  match m with
  | 1 => "जनवरी"
  | 2 => "फरवरी"
  | 3 => "मार्च"
  | 4 => "अप्रैल"
  | 5 => "मई"
  | 6 => "जून"
  | 7 => "जुलाई"
  | 8 => "अगस्त"
  | 9 => "सितंबर"
  | 10 => "अक्टूबर"
  | 11 => "नवंबर"
  | 12 => "दिसंबर"
  | _ => ""

/-- `_format_date_hindi`: `f"{dt.day} {months_hi[dt.month]} {dt.year}"`. -/
def fmtDateHindi (t : Int) : String :=
  let c := civilFromDays (t.toNat / 86400)
  toString c.2.2 ++ " " ++ monthHindi c.2.1 ++ " " ++ toString c.1

/-- Python `a or b` on a plain string (empty string is falsy). -/
def pyOrS (s dflt : String) : String := if s == "" then dflt else s

/-- `agency.get(key, default)` where `agency` is either a full directory entry
or the empty dict (unknown agency code). -/
def agencyGet (a : Option Agency) (f : Agency → String) (dflt : String) : String :=
  match a with
  | some x => f x
  | none => dflt

/-- The `context` dict built by `RTIGenerator.generate`. -/
structure GenContext where
  app : RTIApplication
  agency : Option Agency
  fee : Nat
  date : String
  date_hi : String
  response_deadline : String
  first_appeal_deadline : String
deriving Repr

/-- Context construction in `RTIGenerator.generate`. -/
def mkContext (app : RTIApplication) : GenContext :=
  { app := app
    agency := agencyLookup app.agency_code
    fee := app.fee_amount
    date := fmtDateDMY app.filing_date
    date_hi := fmtDateHindi app.filing_date
    response_deadline := fmtDateDMY app.response_deadline
    first_appeal_deadline := fmtDateDMY app.first_appeal_deadline }

/-- The numbered question block: `f"{i}. {q}"` followed by a blank line, for
`i` counting from 1. -/
def numberQuestions : Nat → List String → List String
  | _, [] => []
  | i, q :: rest => (toString i ++ ". " ++ q) :: "" :: numberQuestions (i + 1) rest

/-- `RTIGenerator._generate_english`. -/
def generateEnglish (ctx : GenContext) : String :=
  let app := ctx.app
  let agency := ctx.agency
  let pio_address := pyOrStr app.custom_pio_address (agencyGet agency Agency.address "[ADDRESS]")
  let pio_designation := agencyGet agency Agency.pio_designation "Public Information Officer"
  let intro : List String :=
    ["APPLICATION UNDER SECTION 6(1) OF THE RIGHT TO INFORMATION ACT, 2005",
     "",
     "Date: " ++ ctx.date,
     "",
     "To,",
     "The " ++ pio_designation ++ ",",
     agencyGet agency Agency.name "[AGENCY NAME]" ++ ",",
     pio_address,
     "",
     "Subject: " ++ pyOrS app.subject "Request for Information under RTI Act, 2005",
     "",
     "Respected Sir/Madam,",
     "",
     "I, the undersigned, am a citizen of India and wish to seek information",
     "under Section 6(1) of the Right to Information Act, 2005. The details",
     "of the information sought are as follows:",
     ""]
  let fee_text :=
    if app.is_bpl then
      "I belong to Below Poverty Line (BPL) category and am exempt from " ++
      "payment of fee under Section 7(5) of the RTI Act, 2005. " ++
      "My BPL Certificate Number is: " ++ pyOrStr app.bpl_certificate_number "[BPL NUMBER]" ++ "."
    else
      "I am enclosing an Indian Postal Order / Demand Draft / Court Fee Stamp " ++
      "of Rs. " ++ toString ctx.fee ++ "/- (Rupees " ++ numberToWords ctx.fee ++ " only) " ++
      "as the prescribed fee under the RTI Act, 2005."
  let closing : List String :=
    [fee_text,
     "",
     "I request that the above information be provided within 30 days as",
     "stipulated under Section 7(1) of the RTI Act, 2005.",
     "",
     "If the information sought or any part thereof concerns the life or",
     "liberty of a person, it shall be provided within 48 hours of receipt",
     "of this request as per Section 7(1) of the Act.",
     "",
     "If this application is transferred to another public authority under",
     "Section 6(3), I request to be informed of the same.",
     "",
     "Yours faithfully,",
     "",
     "Name: " ++ app.applicant_name,
     "Address: " ++ app.applicant_address]
  let contact : List String :=
    (if pyTruthyStr app.applicant_phone then ["Phone: " ++ app.applicant_phone.getD ""] else []) ++
    (if pyTruthyStr app.applicant_email then ["Email: " ++ app.applicant_email.getD ""] else [])
  let footer : List String :=
    ["",
     "---",
     "NOTE: Response deadline under Section 7(1): " ++ ctx.response_deadline,
     "First Appeal deadline under Section 19(1): " ++ ctx.first_appeal_deadline,
     "Appellate Authority: " ++ agencyGet agency Agency.appellate_authority "First Appellate Authority",
     "Second Appeal: " ++ agencyGet agency Agency.second_appeal "Central/State Information Commission"]
  String.intercalate "\n"
    (intro ++ numberQuestions 1 app.questions ++ closing ++ contact ++ footer)

/-- `RTIGenerator._generate_hindi`. -/
def generateHindi (ctx : GenContext) : String :=
  let app := ctx.app
  let agency := ctx.agency
  let pio_address := pyOrStr app.custom_pio_address (agencyGet agency Agency.address "[पता]")
  let agency_name_hi := agencyGet agency Agency.name_hi "[विभाग का नाम]"
  let intro : List String :=
    ["सूचना का अधिकार अधिनियम, 2005 की धारा 6(1) के तहत आवेदन",
     "",
     "दिनांक: " ++ ctx.date_hi,
     "",
     "सेवा में,",
     "जन सूचना अधिकारी,",
     agency_name_hi ++ ",",
     pio_address,
     "",
     "विषय: " ++ pyOrS app.subject "सूचना का अधिकार अधिनियम, 2005 के तहत सूचना प्राप्त करने का आवेदन",
     "",
     "महोदय/महोदया,",
     "",
     "मैं, नीचे हस्ताक्षरकर्ता, भारत का नागरिक हूं और सूचना का अधिकार",
     "अधिनियम, 2005 की धारा 6(1) के तहत निम्नलिखित सूचना प्राप्त करना चाहता/चाहती हूं:",
     ""]
  let fee_block : List String :=
    if app.is_bpl then
      ["मैं गरीबी रेखा से नीचे (BPL) की श्रेणी में आता/आती हूं और RTI अधिनियम, 2005",
       "की धारा 7(5) के तहत शुल्क से मुक्त हूं।",
       "BPL प्रमाणपत्र संख्या: " ++ pyOrStr app.bpl_certificate_number "[BPL संख्या]"]
    else
      ["मैं RTI अधिनियम, 2005 के तहत निर्धारित शुल्क के रूप में",
       "₹" ++ toString ctx.fee ++ "/- का भारतीय पोस्टल ऑर्डर / डिमांड ड्राफ्ट संलग्न कर रहा/रही हूं।"]
  let closing : List String :=
    ["",
     "कृपया उपरोक्त सूचना RTI अधिनियम, 2005 की धारा 7(1) के तहत",
     "निर्धारित 30 दिनों के भीतर उपलब्ध कराएं।",
     "",
     "भवदीय/भवदीया,",
     "",
     "नाम: " ++ app.applicant_name,
     "पता: " ++ app.applicant_address]
  let contact : List String :=
    (if pyTruthyStr app.applicant_phone then ["फोन: " ++ app.applicant_phone.getD ""] else []) ++
    (if pyTruthyStr app.applicant_email then ["ईमेल: " ++ app.applicant_email.getD ""] else [])
  String.intercalate "\n"
    (intro ++ numberQuestions 1 app.questions ++ fee_block ++ closing ++ contact)

/-- The 70-character separator rule `"=" * 70`. -/
def sep70 : String := String.mk (List.replicate 70 '=')

/-- `RTIGenerator._generate_bilingual`: English version, then Hindi version,
each under its labelled banner. -/
def generateBilingual (ctx : GenContext) : String :=
  let english := generateEnglish ctx
  let hindi := generateHindi ctx
  sep70 ++ "\n" ++ "ENGLISH VERSION / अंग्रेज़ी संस्करण\n" ++ sep70 ++ "\n\n" ++
    english ++ "\n\n" ++ sep70 ++ "\n" ++ "हिंदी संस्करण / HINDI VERSION\n" ++
    sep70 ++ "\n\n" ++ hindi

/-- `RTIGenerator.generate`: build the context and dispatch on the language
(the write-back onto `generated_text` is a side channel the spec declares
irrelevant to correctness; the model returns the text). -/
def generate (app : RTIApplication) : String :=
  let ctx := mkContext app
  if app.language == "hindi" then generateHindi ctx
  else if app.language == "bilingual" then generateBilingual ctx
  else generateEnglish ctx

/-- `line.split(".", 1)[1]`: everything after the first dot. -/
def afterFirstDot (s : String) : String :=
  String.mk ((s.data.dropWhile (fun c => !(c == '.'))).drop 1)

/-- `RTIGenerator._extract_template_questions`: over the stripped template
split into lines, keep each stripped line that is non-empty, starts with a
digit and has a dot among its first four characters, taking the stripped text
after the first dot when that text is non-empty. -/
def extractTemplateQuestions (template_text : String) : List String :=
  let ls := ((pyStrip template_text).data.splitOn '\n').map String.mk
  ls.foldl
    (fun acc l =>
      let line := pyStrip l
      if !(line == "") && (line.data.headD ' ').isDigit && (line.data.take 4).contains '.' then
        let question := pyStrip (afterFirstDot line)
        if !(question == "") then acc ++ [question] else acc
      else acc)
    []

/-- A line starting with a digit-dot prefix in the claim's sense: one or more
digits immediately followed by a dot. -/
def startsDigitsDot (l : List Char) : Bool :=
  let ds := l.takeWhile Char.isDigit
  !ds.isEmpty && ((l.drop ds.length).headD ' ' == '.')

/-- Modelled from the claim's words (for comparison with the source
function): skip blank lines, skip lines that do not start with a digit-dot
prefix, keep the remaining numbered lines' text after the first dot, in
order. -/
def claimExtractTemplateQuestions (template_text : String) : List String :=
  let ls := ((pyStrip template_text).data.splitOn '\n').map String.mk
  ls.foldl
    (fun acc l =>
      let line := pyStrip l
      if !(line == "") && startsDigitsDot line.data then
        acc ++ [pyStrip (afterFirstDot line)]
      else acc)
    []

/-- The per-line decision of `_extract_template_questions`: the question kept
from a raw template line, if any (stripped line non-empty, first character a
digit, a dot among the first four characters, and non-empty stripped text
after the first dot). -/
def keepLine (l : String) : Option String :=
  let line := pyStrip l
  if !(line == "") && (line.data.headD ' ').isDigit && (line.data.take 4).contains '.' then
    let question := pyStrip (afterFirstDot line)
    if !(question == "") then some question else none
  else none

/-- The banner block printed before the English version in the bilingual
rendering. -/
def bannerEnglish : String :=
  sep70 ++ "\n" ++ "ENGLISH VERSION / अंग्रेज़ी संस्करण\n" ++ sep70 ++ "\n\n"

/-- The banner block printed before the Hindi version in the bilingual
rendering. -/
def bannerHindi : String :=
  sep70 ++ "\n" ++ "हिंदी संस्करण / HINDI VERSION\n" ++ sep70 ++ "\n\n"

/-- The worked example of the spec: an application filed on 2026-01-01. -/
def exampleApp : RTIApplication :=
  { agency_code := "awbi", questions := ["Q1"], applicant_name := "Test",
    applicant_address := "Addr", applicant_phone := none, applicant_email := none,
    is_bpl := false, bpl_certificate_number := none, language := "english",
    state := none, district := none, subject := "", filing_date := tsOfCivil 2026 1 1,
    custom_pio_name := none, custom_pio_address := none }

/-- A BPL-exempt application that also names an agency and a region (the
exemption must win over both). -/
def appBpl : RTIApplication :=
  { exampleApp with is_bpl := true, state := some "Gujarat" }

/-- A non-exempt application for the region `"Tamil Nadu"` (spaces, capitals). -/
def appTamilNadu : RTIApplication :=
  { exampleApp with state := some "Tamil Nadu" }

/-- A non-exempt application for the already-normalized region `"tamil_nadu"`. -/
def appTamilNaduKey : RTIApplication :=
  { exampleApp with state := some "tamil_nadu" }

/-- A non-exempt application for the region `"Gujarat"` (the one region whose
fee differs from the category default). -/
def appGujarat : RTIApplication :=
  { exampleApp with state := some "Gujarat" }

/-- Adding a record without supplying a filing date, at clock
2026-01-01T00:00. -/
def addNoDateResult : TrackerState × Nat :=
  addRti emptyTracker (tsOfCivil 2026 1 1) "awbi" "Animal Welfare Board of India"
    "Test" "Subject" ["Q1"] none 10 none none none none

/-- A one-record store (id 1, filed at clock 0) used to instantiate the
store theorems. -/
def wSt : TrackerState :=
  (addRti emptyTracker 0 "awbi" "AWBI" "Test" "Subject" ["Q1"] (some 0) 10
    none none none none).1

/-- Clock for the overdue-query scenario. -/
def demoNow : Int := tsOfCivil 2026 3 1

/-- Overdue-query scenario: record 1 filed 35 days ago (status `filed`),
record 2 filed today, record 3 filed 35 days ago but marked
`response_received`. -/
def demoSt : TrackerState :=
  let s1 := (addRti emptyTracker demoNow "awbi" "AWBI" "Test" "Overdue RTI" ["Q1"]
    (some (demoNow - daysTd 35)) 10 none none none none).1
  let s2 := (addRti s1 demoNow "fssai" "FSSAI" "Test" "Recent RTI" ["Q1"]
    (some demoNow) 10 none none none none).1
  let s3 := (addRti s2 demoNow "cpcb" "CPCB" "Test" "Answered RTI" ["Q1"]
    (some (demoNow - daysTd 35)) 10 none none none none).1
  (markResponseReceived s3 demoNow 3 "Received" none none).1

/-! ## Helper lemmas (shared infrastructure, not claim theorems) -/

theorem lookup_exists_mem {α β : Type} [BEq α] (l : List (α × β)) (a : α) (b : β)
    (h : l.lookup a = some b) : ∃ p, p ∈ l ∧ p.2 = b := by
  induction l with
  | nil => simp [List.lookup] at h
  | cons p t ih =>
    obtain ⟨k, v⟩ := p
    rw [List.lookup] at h
    split at h
    · exact ⟨(k, v), List.mem_cons_self _ _, Option.some.inj h⟩
    · obtain ⟨q, hq, hq2⟩ := ih h
      exact ⟨q, List.mem_cons_of_mem _ hq, hq2⟩

theorem find?_map_update (recs : List RTIRecord) (id : Nat) (f : RTIRecord → RTIRecord)
    (hf : ∀ r, (f r).id = r.id) :
    (recs.map (fun r => if r.id == id then f r else r)).find? (fun r => r.id == id) =
      (recs.find? (fun r => r.id == id)).map f := by
  rw [List.find?_map]
  have hp : ((fun r => r.id == id) ∘ fun r : RTIRecord => if r.id == id then f r else r) =
      (fun r : RTIRecord => r.id == id) := by
    funext r
    by_cases h : r.id = id
    · simp [h, hf]
    · simp [h]
  rw [hp]
  cases hfind : recs.find? (fun r => r.id == id) with
  | none => rfl
  | some r0 =>
    have h0 := List.find?_some hfind
    simp only [beq_iff_eq] at h0
    simp [h0]

theorem updateRecord_getById (st : TrackerState) (id : Nat) (f : RTIRecord → RTIRecord)
    (hf : ∀ r, (f r).id = r.id) :
    getById (updateRecord st id f).1 id = (getById st id).map f := by
  unfold updateRecord
  cases h : getById st id with
  | none => simp [h]
  | some r =>
    simp only [h]
    unfold getById at h ⊢
    rw [find?_map_update st.recs id f hf, h]

theorem updateRecord_flag (st : TrackerState) (id : Nat) (f : RTIRecord → RTIRecord) :
    (updateRecord st id f).2 = (getById st id).isSome := by
  unfold updateRecord
  cases h : getById st id <;> simp [h]

theorem updateRecord_missing (st : TrackerState) (id : Nat) (f : RTIRecord → RTIRecord)
    (h : getById st id = none) : updateRecord st id f = (st, false) := by
  unfold updateRecord
  rw [h]

theorem updateStatusRow_id (now : Int) (status : RTIStatus) (notes summ : Option String)
    (r : RTIRecord) : (updateStatusRow now status notes summ r).id = r.id := by
  unfold updateStatusRow
  cases h1 : pyTruthyStr notes <;> cases h2 : pyTruthyStr summ <;>
    cases h3 : status == RTIStatus.response_received <;> simp [h1, h2, h3]

theorem markResponseRow_id (now : Int) (rsum : String) (docs : Option (List String))
    (rdate : Option Int) (r : RTIRecord) : (markResponseRow now rsum docs rdate r).id = r.id := by
  unfold markResponseRow
  cases h1 : pyTruthyList docs <;> simp [h1]

theorem fileFirstAppealRow_id (now : Int) (auth : String) (d : Option Int)
    (notes : Option String) (r : RTIRecord) :
    (fileFirstAppealRow now auth d notes r).id = r.id := by
  unfold fileFirstAppealRow
  cases h1 : pyTruthyStr notes <;> simp [h1]

theorem fileSecondAppealRow_id (now : Int) (d : Option Int) (comm : String)
    (notes : Option String) (r : RTIRecord) :
    (fileSecondAppealRow now d comm notes r).id = r.id := by
  unfold fileSecondAppealRow
  cases h1 : pyTruthyStr notes <;> simp [h1]

theorem fileFirstAppealRow_fields (now : Int) (auth : String) (d : Option Int)
    (notes : Option String) (r : RTIRecord) :
    (fileFirstAppealRow now auth d notes r).status = RTIStatus.first_appeal_filed ∧
    (fileFirstAppealRow now auth d notes r).first_appeal_date = some (d.getD now) ∧
    (fileFirstAppealRow now auth d notes r).first_appeal_authority = some auth ∧
    (fileFirstAppealRow now auth d notes r).first_appeal_deadline =
      some (d.getD now + daysTd 30) ∧
    (fileFirstAppealRow now auth d notes r).updated_at = now := by
  unfold fileFirstAppealRow
  cases h1 : pyTruthyStr notes <;> simp [h1]

theorem fileSecondAppealRow_fields (now : Int) (d : Option Int) (comm : String)
    (notes : Option String) (r : RTIRecord) :
    (fileSecondAppealRow now d comm notes r).status = RTIStatus.second_appeal_filed ∧
    (fileSecondAppealRow now d comm notes r).second_appeal_date = some (d.getD now) ∧
    (fileSecondAppealRow now d comm notes r).second_appeal_authority = some comm ∧
    (fileSecondAppealRow now d comm notes r).second_appeal_deadline =
      some (d.getD now + daysTd 90) ∧
    (fileSecondAppealRow now d comm notes r).updated_at = now := by
  unfold fileSecondAppealRow
  cases h1 : pyTruthyStr notes <;> simp [h1]

theorem updateStatusRow_twice (now : Int) (status : RTIStatus) (notes summ : Option String)
    (r : RTIRecord) :
    updateStatusRow now status notes summ (updateStatusRow now status notes summ r) =
      (if pyTruthyStr notes then
        { updateStatusRow now status notes summ r with
            notes := some (appendNote (updateStatusRow now status notes summ r).notes
                             (fmtTimestamp now) (notes.getD "")) }
       else updateStatusRow now status notes summ r) := by
  unfold updateStatusRow
  cases h1 : pyTruthyStr notes <;> cases h2 : pyTruthyStr summ <;>
    cases h3 : status == RTIStatus.response_received <;> simp [h1, h2, h3]

theorem markResponseRow_twice (now : Int) (rsum : String) (docs : Option (List String))
    (rdate : Option Int) (r : RTIRecord) :
    markResponseRow now rsum docs rdate (markResponseRow now rsum docs rdate r) =
      markResponseRow now rsum docs rdate r := by
  unfold markResponseRow
  cases h1 : pyTruthyList docs <;> simp [h1]

theorem fileFirstAppealRow_twice (now : Int) (auth : String) (d : Option Int)
    (notes : Option String) (r : RTIRecord) :
    fileFirstAppealRow now auth d notes (fileFirstAppealRow now auth d notes r) =
      (if pyTruthyStr notes then
        { fileFirstAppealRow now auth d notes r with
            notes := some (appendNote (fileFirstAppealRow now auth d notes r).notes
                             (fmtTimestamp now) ("First appeal: " ++ notes.getD "")) }
       else fileFirstAppealRow now auth d notes r) := by
  unfold fileFirstAppealRow
  cases h1 : pyTruthyStr notes <;> simp [h1]

theorem fileSecondAppealRow_twice (now : Int) (d : Option Int) (comm : String)
    (notes : Option String) (r : RTIRecord) :
    fileSecondAppealRow now d comm notes (fileSecondAppealRow now d comm notes r) =
      (if pyTruthyStr notes then
        { fileSecondAppealRow now d comm notes r with
            notes := some (appendNote (fileSecondAppealRow now d comm notes r).notes
                             (fmtTimestamp now) ("Second appeal: " ++ notes.getD "")) }
       else fileSecondAppealRow now d comm notes r) := by
  unfold fileSecondAppealRow
  cases h1 : pyTruthyStr notes <;> simp [h1]

theorem fee_amount_of_bpl (app : RTIApplication) (h : app.is_bpl = true) :
    app.fee_amount = 0 := by
  unfold RTIApplication.fee_amount
  simp [h]

theorem fee_amount_region_hit (app : RTIApplication) (s : String) (v : Nat)
    (hb : app.is_bpl = false) (hs : app.state = some s) (hne : (s == "") = false)
    (hv : feesLookup (normState s) = some v) : app.fee_amount = v := by
  unfold RTIApplication.fee_amount
  simp [hb, hs, hne, hv]

theorem fee_amount_region_miss (app : RTIApplication) (hb : app.is_bpl = false)
    (hmiss : ∀ s, app.state = some s → (s == "") = false → feesLookup (normState s) = none) :
    app.fee_amount = (feesLookup (agencyFeeCategory app.agency_code)).getD 10 := by
  unfold RTIApplication.fee_amount
  rw [hb]
  simp only [Bool.false_eq_true, if_false]
  cases hs : app.state with
  | none => rfl
  | some s =>
    cases he : (s == "") with
    | true => simp [he]
    | false => simp [he, hmiss s hs he]

theorem directory_fee_default_ten (code : String) (a : Agency)
    (h : agencyLookup code = some a) : (feesLookup (agencyFeeCategory code)).getD 10 = 10 := by
  obtain ⟨p, hp, hp2⟩ := lookup_exists_mem AGENCY_DIRECTORY code a h
  have hall : ∀ p ∈ AGENCY_DIRECTORY, (feesLookup (p.2.fee_category)).getD 10 = 10 := by decide
  have h10 := hall p hp
  rw [agencyFeeCategory, h, ← hp2]
  exact h10

/-! ## Claim theorems -/

/-- **C1 (counterexample).** The claim says a record added with no
`filing_date` starts in status `drafted`; the code files it: adding a record
without a filing date yields status `filed`, not `drafted` (the source
defaults `filing_date` to the current time *before* testing it, so the
`DRAFTED` branch tests an always-truthy `datetime`). -/
theorem addRti_no_filing_date_not_drafted :
    addNoDateResult.1.recs.map RTIRecord.status = [RTIStatus.filed] ∧
    ¬ addNoDateResult.1.recs.map RTIRecord.status = [RTIStatus.drafted] := by
  decide

/-- **C1 (amended).** For every call to the store's `add` operation the
created record's initial status is `filed`, whether or not a `filing_date`
argument was supplied (when none is supplied `filing_date` defaults to the
current time, and the status conditional then sees an always-truthy
`datetime`, so its `drafted` branch is unreachable). -/
theorem addRti_status_always_filed (st : TrackerState) (now : Int)
    (ac an apn subj : String) (qs : List String) (fd : Option Int) (fee : Nat)
    (s d ft rn : Option String) :
    ∃ r : RTIRecord,
      (addRti st now ac an apn subj qs fd fee s d ft rn).1.recs = st.recs ++ [r] ∧
      (addRti st now ac an apn subj qs fd fee s d ft rn).2 = st.nextId ∧
      r.status = RTIStatus.filed ∧
      r.filing_date = fd.getD now ∧
      r.response_deadline = fd.getD now + daysTd 30 ∧
      r.id = st.nextId ∧ r.created_at = now ∧ r.updated_at = now :=
  ⟨_, rfl, rfl, rfl, rfl, rfl, rfl, rfl, rfl⟩

/-- **C2.** For every filing date the draft-time deadlines are chained
day-offset additions: `response_deadline = filing + 30d`,
`first_appeal_deadline = filing + 60d`, `second_appeal_deadline =
filing + 150d`; in particular filing 2026-01-01 yields 2026-01-31,
2026-03-02 and 2026-05-31. -/
theorem deadline_chain_offsets :
    (∀ app : RTIApplication,
        app.response_deadline = app.filing_date + daysTd 30 ∧
        app.first_appeal_deadline = app.filing_date + daysTd 60 ∧
        app.second_appeal_deadline = app.filing_date + daysTd 150) ∧
    exampleApp.filing_date = tsOfCivil 2026 1 1 ∧
    exampleApp.response_deadline = tsOfCivil 2026 1 31 ∧
    exampleApp.first_appeal_deadline = tsOfCivil 2026 3 2 ∧
    exampleApp.second_appeal_deadline = tsOfCivil 2026 5 31 := by
  refine ⟨fun app => ⟨rfl, ?_, ?_⟩, rfl, by decide, by decide, by decide⟩
  · unfold RTIApplication.first_appeal_deadline RTIApplication.response_deadline daysTd
    omega
  · unfold RTIApplication.second_appeal_deadline RTIApplication.first_appeal_deadline
      RTIApplication.response_deadline daysTd
    omega

/-- **C3.** Fee resolution: a set exemption (BPL) flag yields 0 regardless of
agency or region; otherwise a region present in the fee table (after
normalization) takes precedence; otherwise the agency's fee category applies
with default 10; and with no exemption and no matching region every agency in
the Directory yields 10. -/
theorem fee_resolution_policy (app : RTIApplication) :
    (app.is_bpl = true → app.fee_amount = 0) ∧
    (app.is_bpl = false → ∀ s v, app.state = some s → (s == "") = false →
       feesLookup (normState s) = some v → app.fee_amount = v) ∧
    (app.is_bpl = false →
       (∀ s, app.state = some s → (s == "") = false → feesLookup (normState s) = none) →
       app.fee_amount = (feesLookup (agencyFeeCategory app.agency_code)).getD 10) ∧
    (app.is_bpl = false →
       (∀ s, app.state = some s → (s == "") = false → feesLookup (normState s) = none) →
       ∀ a, agencyLookup app.agency_code = some a → app.fee_amount = 10) := by
  refine ⟨fee_amount_of_bpl app, ?_, ?_, ?_⟩
  · intro hb s v hs hne hv
    exact fee_amount_region_hit app s v hb hs hne hv
  · intro hb hmiss
    exact fee_amount_region_miss app hb hmiss
  · intro hb hmiss a ha
    rw [fee_amount_region_miss app hb hmiss, directory_fee_default_ten app.agency_code a ha]

/-- Witness for C3: the exemption beats the Gujarat region fee; the Gujarat
region fee (20) beats the central category fee; an application with no region
and a Directory agency pays 10. -/
theorem fee_resolution_policy_witness :
    appBpl.fee_amount = 0 ∧ appGujarat.fee_amount = 20 ∧ exampleApp.fee_amount = 10 := by
  refine ⟨(fee_resolution_policy appBpl).1 rfl, ?_, ?_⟩
  · exact (fee_resolution_policy appGujarat).2.1 rfl "Gujarat" 20 rfl (by decide) (by decide)
  · have h := (fee_resolution_policy exampleApp).2.2.2 rfl
      (fun s hs => by simp [exampleApp] at hs)
    cases ha : agencyLookup exampleApp.agency_code with
    | none => exact absurd ha (by decide)
    | some a => exact h a ha

/-- **C10.** Fee resolution normalizes the state name (lowercase, spaces to
underscores) before the region-table lookup, so a non-exempt application for
`"Tamil Nadu"` pays the same fee as one for `"tamil_nadu"` (both 10); a state
absent from the table after normalization falls through to the agency's
category fee. -/
theorem fee_region_normalized (app app2 : RTIApplication)
    (hb : app.is_bpl = false) (hs : app.state = some "Tamil Nadu")
    (hb2 : app2.is_bpl = false) (hs2 : app2.state = some "tamil_nadu") :
    normState "Tamil Nadu" = "tamil_nadu" ∧
    app.fee_amount = 10 ∧ app2.fee_amount = 10 ∧
    app.fee_amount = app2.fee_amount ∧
    (∀ (b : RTIApplication) (s : String), b.is_bpl = false → b.state = some s →
       (s == "") = false → feesLookup (normState s) = none →
       b.fee_amount = (feesLookup (agencyFeeCategory b.agency_code)).getD 10) := by
  have h1 : app.fee_amount = 10 :=
    fee_amount_region_hit app "Tamil Nadu" 10 hb hs (by decide) (by decide)
  have h2 : app2.fee_amount = 10 :=
    fee_amount_region_hit app2 "tamil_nadu" 10 hb2 hs2 (by decide) (by decide)
  refine ⟨by decide, h1, h2, by rw [h1, h2], ?_⟩
  intro b s hb3 hs3 hne hnone
  refine fee_amount_region_miss b hb3 ?_
  intro s2 hs4 hne2
  rw [hs3] at hs4
  injection hs4 with he
  subst he
  exact hnone

/-- Witness for C10: the spaced, capitalized name and the table key give the
same fee. -/
theorem fee_region_normalized_witness :
    appTamilNadu.fee_amount = appTamilNaduKey.fee_amount :=
  (fee_region_normalized appTamilNadu appTamilNaduKey rfl rfl rfl rfl).2.2.2.1

theorem twice_getById (st : TrackerState) (id : Nat) (f patch : RTIRecord → RTIRecord)
    (hf : ∀ r, (f r).id = r.id) (hff : ∀ r, f (f r) = patch (f r)) :
    getById (updateRecord (updateRecord st id f).1 id f).1 id =
      (getById (updateRecord st id f).1 id).map patch ∧
    (updateRecord (updateRecord st id f).1 id f).2 = (updateRecord st id f).2 := by
  have h1 : getById (updateRecord st id f).1 id = (getById st id).map f :=
    updateRecord_getById st id f hf
  constructor
  · rw [updateRecord_getById _ id f hf, h1]
    cases hg : getById st id with
    | none => rfl
    | some r =>
      show some (f (f r)) = some (patch (f r))
      rw [hff r]
  · rw [updateRecord_flag, updateRecord_flag, h1]
    cases getById st id <;> rfl

/-- **C4.** For every existing record id, `file_first_appeal` succeeds, sets
status `first_appeal_filed`, stamps `first_appeal_date` (defaulting to the
current time when no date is given) and sets
`first_appeal_deadline = first_appeal_date + 30 days`, overwriting whatever
`first_appeal_deadline` the store held (the store content is arbitrary here);
`file_second_appeal` analogously sets
`second_appeal_deadline = second_appeal_date + 90 days`. -/
theorem file_appeals_set_appeal_deadlines (st : TrackerState) (now : Int) (id : Nat)
    (auth comm : String) (d1 d2 : Option Int) (note1 note2 : Option String)
    (h : (getById st id).isSome = true) :
    ((fileFirstAppeal st now id auth d1 note1).2 = true ∧
      ∃ r, getById (fileFirstAppeal st now id auth d1 note1).1 id = some r ∧
        r.status = RTIStatus.first_appeal_filed ∧
        r.first_appeal_date = some (d1.getD now) ∧
        r.first_appeal_authority = some auth ∧
        r.first_appeal_deadline = some (d1.getD now + daysTd 30)) ∧
    ((fileSecondAppeal st now id d2 comm note2).2 = true ∧
      ∃ r, getById (fileSecondAppeal st now id d2 comm note2).1 id = some r ∧
        r.status = RTIStatus.second_appeal_filed ∧
        r.second_appeal_date = some (d2.getD now) ∧
        r.second_appeal_authority = some comm ∧
        r.second_appeal_deadline = some (d2.getD now + daysTd 90)) := by
  obtain ⟨r0, hr0⟩ := Option.isSome_iff_exists.mp h
  obtain ⟨f1, f2, f3, f4, f5⟩ := fileFirstAppealRow_fields now auth d1 note1 r0
  obtain ⟨g1, g2, g3, g4, g5⟩ := fileSecondAppealRow_fields now d2 comm note2 r0
  refine ⟨⟨?_, fileFirstAppealRow now auth d1 note1 r0, ?_, f1, f2, f3, f4⟩,
          ?_, fileSecondAppealRow now d2 comm note2 r0, ?_, g1, g2, g3, g4⟩
  · show (updateRecord st id _).2 = true
    rw [updateRecord_flag, hr0]
    rfl
  · show getById (updateRecord st id _).1 id = _
    rw [updateRecord_getById st id _ (fileFirstAppealRow_id now auth d1 note1), hr0]
    rfl
  · show (updateRecord st id _).2 = true
    rw [updateRecord_flag, hr0]
    rfl
  · show getById (updateRecord st id _).1 id = _
    rw [updateRecord_getById st id _ (fileSecondAppealRow_id now d2 comm note2), hr0]
    rfl

/-- Witness for C4: on the one-record store, filing the appeals at explicit
dates yields the `+30d` / `+90d` deadlines from those dates. -/
theorem file_appeals_set_appeal_deadlines_witness :
    (fileFirstAppeal wSt 86400 1 "Secretary, AWBI" (some (daysTd 100)) none).2 = true ∧
    (getById (fileFirstAppeal wSt 86400 1 "Secretary, AWBI" (some (daysTd 100)) none).1 1).map
        RTIRecord.first_appeal_deadline = some (some (daysTd 100 + daysTd 30)) ∧
    (fileSecondAppeal wSt 86400 1 (some (daysTd 200)) "CIC" none).2 = true ∧
    (getById (fileSecondAppeal wSt 86400 1 (some (daysTd 200)) "CIC" none).1 1).map
        RTIRecord.second_appeal_deadline = some (some (daysTd 200 + daysTd 90)) := by
  obtain ⟨⟨ha, r1, hr1, _, hd1a, _, hd1⟩, hb, r2, hr2, _, hd2a, _, hd2⟩ :=
    file_appeals_set_appeal_deadlines wSt 86400 1 "Secretary, AWBI" "CIC"
      (some (daysTd 100)) (some (daysTd 200)) none none (by decide)
  refine ⟨ha, ?_, hb, ?_⟩
  · rw [hr1, Option.map_some', hd1]
    rfl
  · rw [hr2, Option.map_some', hd2]
    rfl

/-- **C5.** For every record id not present in the store, `update_status`,
`mark_response_received`, `file_first_appeal` and `file_second_appeal` return
`False` with the store unchanged, and `get_by_id` returns `None`; all
operations are total (no exception path exists in the model). -/
theorem missing_id_not_found (st : TrackerState) (now : Int) (id : Nat)
    (status : RTIStatus) (note summ : Option String) (rsum : String)
    (docs : Option (List String)) (rdate d1 d2 : Option Int) (auth comm : String)
    (h : ∀ r ∈ st.recs, r.id ≠ id) :
    getById st id = none ∧
    updateStatus st now id status note summ = (st, false) ∧
    markResponseReceived st now id rsum docs rdate = (st, false) ∧
    fileFirstAppeal st now id auth d1 note = (st, false) ∧
    fileSecondAppeal st now id d2 comm note = (st, false) := by
  have hg : getById st id = none := by
    unfold getById
    rw [List.find?_eq_none]
    intro r hr
    simpa using h r hr
  exact ⟨hg, updateRecord_missing st id _ hg, updateRecord_missing st id _ hg,
    updateRecord_missing st id _ hg, updateRecord_missing st id _ hg⟩

/-- Witness for C5: id 9999 on the empty store. -/
theorem missing_id_not_found_witness :
    getById emptyTracker 9999 = none ∧
    updateStatus emptyTracker 0 9999 RTIStatus.acknowledged none none = (emptyTracker, false) ∧
    markResponseReceived emptyTracker 0 9999 "summary" none none = (emptyTracker, false) ∧
    fileFirstAppeal emptyTracker 0 9999 "FAA" none none = (emptyTracker, false) ∧
    fileSecondAppeal emptyTracker 0 9999 none "CIC" none = (emptyTracker, false) :=
  missing_id_not_found emptyTracker 0 9999 RTIStatus.acknowledged none none "summary"
    none none none none "FAA" "CIC" (by decide)

/-- **C6.** The overdue query returns exactly the records whose response
deadline is strictly in the past and whose status is `filed` or
`acknowledged`; concretely, of a record filed 35 days ago (status `filed`),
one filed today, and one filed 35 days ago but `response_received`, only the
first is returned. -/
theorem overdue_query_spec :
    (∀ (st : TrackerState) (now : Int) (r : RTIRecord),
        r ∈ getOverdue st now ↔
          r ∈ st.recs ∧ r.response_deadline < now ∧
            (r.status = RTIStatus.filed ∨ r.status = RTIStatus.acknowledged)) ∧
    (getOverdue demoSt demoNow).map RTIRecord.subject = ["Overdue RTI"] ∧
    (getOverdue demoSt demoNow).map RTIRecord.id = [1] := by
  refine ⟨?_, by decide, by decide⟩
  intro st now r
  unfold getOverdue
  simp [List.mem_filter, and_assoc]

/-- **C9.** Re-invoking any mutator with the same arguments (and the same
clock) leaves every field of the targeted record as after the first
invocation — except the notes log, which gains one duplicated timestamped
entry per invocation when a note is given — and returns the same success
flag.  `mark_response_received` takes no note and is fully idempotent. -/
theorem mutators_idempotent_modulo_notes (st : TrackerState) (now : Int) (id : Nat)
    (status : RTIStatus) (note summ : Option String) (rsum : String)
    (docs : Option (List String)) (rdate d1 d2 : Option Int) (auth comm : String) :
    (getById (updateStatus (updateStatus st now id status note summ).1
          now id status note summ).1 id =
        (getById (updateStatus st now id status note summ).1 id).map
          (fun r => if pyTruthyStr note then
              { r with notes := some (appendNote r.notes (fmtTimestamp now) (note.getD "")) }
            else r) ∧
      (updateStatus (updateStatus st now id status note summ).1 now id status note summ).2 =
        (updateStatus st now id status note summ).2) ∧
    (getById (markResponseReceived (markResponseReceived st now id rsum docs rdate).1
          now id rsum docs rdate).1 id =
        getById (markResponseReceived st now id rsum docs rdate).1 id ∧
      (markResponseReceived (markResponseReceived st now id rsum docs rdate).1
          now id rsum docs rdate).2 =
        (markResponseReceived st now id rsum docs rdate).2) ∧
    (getById (fileFirstAppeal (fileFirstAppeal st now id auth d1 note).1
          now id auth d1 note).1 id =
        (getById (fileFirstAppeal st now id auth d1 note).1 id).map
          (fun r => if pyTruthyStr note then
              { r with notes := some (appendNote r.notes (fmtTimestamp now)
                                        ("First appeal: " ++ note.getD "")) }
            else r) ∧
      (fileFirstAppeal (fileFirstAppeal st now id auth d1 note).1 now id auth d1 note).2 =
        (fileFirstAppeal st now id auth d1 note).2) ∧
    (getById (fileSecondAppeal (fileSecondAppeal st now id d2 comm note).1
          now id d2 comm note).1 id =
        (getById (fileSecondAppeal st now id d2 comm note).1 id).map
          (fun r => if pyTruthyStr note then
              { r with notes := some (appendNote r.notes (fmtTimestamp now)
                                        ("Second appeal: " ++ note.getD "")) }
            else r) ∧
      (fileSecondAppeal (fileSecondAppeal st now id d2 comm note).1 now id d2 comm note).2 =
        (fileSecondAppeal st now id d2 comm note).2) := by
  refine ⟨?_, ?_, ?_, ?_⟩
  · exact twice_getById st id _ _ (updateStatusRow_id now status note summ)
      (fun r => updateStatusRow_twice now status note summ r)
  · obtain ⟨hA, hB⟩ := twice_getById st id _ (fun r => r)
      (markResponseRow_id now rsum docs rdate)
      (fun r => markResponseRow_twice now rsum docs rdate r)
    refine ⟨?_, hB⟩
    simp only [markResponseReceived]
    rw [hA]
    cases getById (updateRecord st id (markResponseRow now rsum docs rdate)).1 id <;> rfl
  · exact twice_getById st id _ _ (fileFirstAppealRow_id now auth d1 note)
      (fun r => fileFirstAppealRow_twice now auth d1 note r)
  · exact twice_getById st id _ _ (fileSecondAppealRow_id now d2 comm note)
      (fun r => fileSecondAppealRow_twice now d2 comm note r)

theorem generateEnglish_congr (c1 c2 : GenContext)
    (h1 : c1.agency = c2.agency) (h2 : c1.fee = c2.fee) (h3 : c1.date = c2.date)
    (h4 : c1.response_deadline = c2.response_deadline)
    (h5 : c1.first_appeal_deadline = c2.first_appeal_deadline)
    (h6 : c1.app.custom_pio_address = c2.app.custom_pio_address)
    (h7 : c1.app.subject = c2.app.subject)
    (h8 : c1.app.is_bpl = c2.app.is_bpl)
    (h9 : c1.app.bpl_certificate_number = c2.app.bpl_certificate_number)
    (h10 : c1.app.questions = c2.app.questions)
    (h11 : c1.app.applicant_name = c2.app.applicant_name)
    (h12 : c1.app.applicant_address = c2.app.applicant_address)
    (h13 : c1.app.applicant_phone = c2.app.applicant_phone)
    (h14 : c1.app.applicant_email = c2.app.applicant_email) :
    generateEnglish c1 = generateEnglish c2 := by
  simp only [generateEnglish]
  rw [h1, h2, h3, h4, h5, h6, h7, h8, h9, h10, h11, h12, h13, h14]

theorem generateHindi_congr (c1 c2 : GenContext)
    (h1 : c1.agency = c2.agency) (h2 : c1.fee = c2.fee) (h3 : c1.date_hi = c2.date_hi)
    (h6 : c1.app.custom_pio_address = c2.app.custom_pio_address)
    (h7 : c1.app.subject = c2.app.subject)
    (h8 : c1.app.is_bpl = c2.app.is_bpl)
    (h9 : c1.app.bpl_certificate_number = c2.app.bpl_certificate_number)
    (h10 : c1.app.questions = c2.app.questions)
    (h11 : c1.app.applicant_name = c2.app.applicant_name)
    (h12 : c1.app.applicant_address = c2.app.applicant_address)
    (h13 : c1.app.applicant_phone = c2.app.applicant_phone)
    (h14 : c1.app.applicant_email = c2.app.applicant_email) :
    generateHindi c1 = generateHindi c2 := by
  simp only [generateHindi]
  rw [h1, h2, h3, h6, h7, h8, h9, h10, h11, h12, h13, h14]

theorem generate_dispatch_english (b : RTIApplication) (hb : b.language = "english") :
    generate b = generateEnglish (mkContext b) := by
  have e1 : (("english" : String) == "hindi") = false := by decide
  have e2 : (("english" : String) == "bilingual") = false := by decide
  unfold generate
  rw [hb]
  simp only [e1, e2, Bool.false_eq_true, if_false]

theorem generate_dispatch_hindi (b : RTIApplication) (hb : b.language = "hindi") :
    generate b = generateHindi (mkContext b) := by
  have e1 : (("hindi" : String) == "hindi") = true := by decide
  unfold generate
  rw [hb]
  simp only [e1, if_true]

theorem generate_dispatch_bilingual (b : RTIApplication) (hb : b.language = "bilingual") :
    generate b = generateBilingual (mkContext b) := by
  have e1 : (("bilingual" : String) == "hindi") = false := by decide
  have e2 : (("bilingual" : String) == "bilingual") = true := by decide
  unfold generate
  rw [hb]
  simp only [e1, e2, Bool.false_eq_true, if_false, if_true]

set_option maxHeartbeats 1000000 in
theorem mkContext_set_language (app : RTIApplication) (l : String) :
    mkContext { app with language := l } =
      { mkContext app with app := { app with language := l } } := rfl

/-- **C7.** For every application, the bilingual rendering equals the
labelled English banner, then the English-only rendering of the same
application, then a blank-line separator, then the labelled Hindi banner,
then the Hindi-only rendering — in that order; stripped of the banner
insertions (and the interstitial separator) it is exactly the English-only
output followed by the Hindi-only output. -/
theorem bilingual_is_english_then_hindi (app : RTIApplication) :
    generate { app with language := "bilingual" } =
      bannerEnglish ++ generate { app with language := "english" } ++ "\n\n" ++
        bannerHindi ++ generate { app with language := "hindi" } := by
  rw [generate_dispatch_bilingual _ rfl, generate_dispatch_english _ rfl,
      generate_dispatch_hindi _ rfl, mkContext_set_language app "bilingual",
      mkContext_set_language app "english", mkContext_set_language app "hindi"]
  rw [generateEnglish_congr { mkContext app with app := { app with language := "english" } }
        { mkContext app with app := { app with language := "bilingual" } }
        rfl rfl rfl rfl rfl rfl rfl rfl rfl rfl rfl rfl rfl rfl]
  rw [generateHindi_congr { mkContext app with app := { app with language := "hindi" } }
        { mkContext app with app := { app with language := "bilingual" } }
        rfl rfl rfl rfl rfl rfl rfl rfl rfl rfl rfl rfl]
  simp only [generateBilingual, bannerEnglish, bannerHindi, String.append_assoc]

theorem extract_step_keepLine (acc : List String) (l : String) :
    (let line := pyStrip l
     if !(line == "") && (line.data.headD ' ').isDigit && (line.data.take 4).contains '.' then
       let question := pyStrip (afterFirstDot line)
       if !(question == "") then acc ++ [question] else acc
     else acc)
    = (match keepLine l with
       | some q => acc ++ [q]
       | none => acc) := by
  by_cases hc : (!(pyStrip l == "") && ((pyStrip l).data.headD ' ').isDigit &&
      ((pyStrip l).data.take 4).contains '.') = true
  · by_cases hq : (!(pyStrip (afterFirstDot (pyStrip l)) == "")) = true
    · simp only [keepLine, if_pos hc, if_pos hq]
    · simp only [keepLine, if_pos hc, if_neg hq]
  · simp only [keepLine, if_neg hc]

theorem extract_foldl_eq (ls : List String) (acc : List String) :
    ls.foldl
      (fun acc l =>
        let line := pyStrip l
        if !(line == "") && (line.data.headD ' ').isDigit && (line.data.take 4).contains '.' then
          let question := pyStrip (afterFirstDot line)
          if !(question == "") then acc ++ [question] else acc
        else acc) acc
    = acc ++ ls.filterMap keepLine := by
  induction ls generalizing acc with
  | nil => simp
  | cons l t ih =>
    rw [List.foldl_cons, List.filterMap_cons, extract_step_keepLine acc l]
    cases hk : keepLine l with
    | none => simpa using ih acc
    | some q =>
      simp only []
      rw [ih (acc ++ [q])]
      simp

/-- **C8 (counterexample).** The claim keeps the after-dot text of every line
starting with a digit-dot prefix, but the code also requires the dot to fall
within the first four characters: the numbered line `"1234. foo"` starts with
a digit-dot prefix, yet extraction drops it (claim predicts `["foo"]`). -/
theorem extraction_drops_four_digit_number :
    extractTemplateQuestions "1234. foo" = [] ∧
    startsDigitsDot (pyStrip "1234. foo").data = true ∧
    claimExtractTemplateQuestions "1234. foo" = ["foo"] := by
  decide

/-- **C8 (amended).** Question extraction processes the stripped template
line by line in order: it keeps exactly the stripped lines that are
non-empty, start with a digit and have a dot among their first four
characters, taking the stripped text after the first dot when that text is
non-empty (`keepLine`), and preserving the original line order; in
particular a template with blank lines, non-numbered lines and the numbered
lines `"1. foo"`, `"2. bar"` yields exactly `["foo", "bar"]`. -/
theorem template_extraction_characterized (t : String) :
    extractTemplateQuestions t =
      (((pyStrip t).data.splitOn '\n').map String.mk).filterMap keepLine ∧
    extractTemplateQuestions "Heading line\n\n1. foo\nnot a numbered line\n2. bar\n" =
      ["foo", "bar"] := by
  refine ⟨?_, by decide⟩
  show (((pyStrip t).data.splitOn '\n').map String.mk).foldl _ [] = _
  rw [extract_foldl_eq]
  simp
